import Mathlib

/-!
Verification of the mail-scanner extraction pipeline (`mail_scanner.py`).

The development shallowly embeds the Python module `MailScanner`:

* Python dictionaries with string keys are modelled as insertion-ordered
  association lists (`PyDict`) whose values are `PyVal` (a string, a boolean,
  or Python's `None`).  `dset` models `d[k] = v`, `dget` models `d.get(k)`,
  `dupdate` models `d.update(u)`.
* External collaborators (the Gemini vision model, Tesseract, the Smarty
  street-address service, and the stdlib `json.loads`) are passed in as
  explicit values/functions, so each code path of the pipeline becomes a pure
  function of its environment.
* The two regular expressions of `_parse_address_text`
  (`\b\d{5}(?:-\d{4})?\b` and `([^,]+),\s*([A-Z]{2})\s*\d{5}`) are embedded as
  executable leftmost-match scanners over the character list of a line,
  including the word-boundary semantics of `\b` (ASCII word characters).
  Unicode-only aspects of Python's `\s`/`\w`/`\d` (exotic whitespace, non-ASCII
  word characters) are outside the model; all inputs of interest are ASCII.
-/

namespace MailScan

/-- Python values appearing in the scanner's dictionaries: `None`, a string,
or a boolean. -/
inductive PyVal where
  | none : PyVal
  | str : String → PyVal
  | bool : Bool → PyVal
deriving DecidableEq, Repr

/-- A Python `dict` with string keys, as an insertion-ordered association
list (Python 3 dicts preserve insertion order). -/
def PyDict := List (String × PyVal)

instance : DecidableEq PyDict := by
  unfold PyDict
  infer_instance

/-- `d[k] = v`: replace the value in place when the key exists, otherwise
append the new key at the end (Python dict assignment). -/
def dset (d : PyDict) (k : String) (v : PyVal) : PyDict :=
  match d with
  | [] => [(k, v)]
  | (k', v') :: rest => if k' = k then (k, v) :: rest else (k', v') :: dset rest k v

/-- `d.get(k)`: the value stored at `k`, or `None` when absent. -/
def dget (d : PyDict) (k : String) : PyVal :=
  match d with
  | [] => PyVal.none
  | (k', v') :: rest => if k' = k then v' else dget rest k

/-- `d.update(u)`: assign every key of `u` into `d`, in `u`'s order. -/
def dupdate (d u : PyDict) : PyDict :=
  u.foldl (fun a kv => dset a kv.1 kv.2) d

/-- The keys of a dictionary, in order. -/
def dkeys (d : PyDict) : List String := d.map Prod.fst

/-- Python truthiness for the values that reach `if not x` checks in the
scanner: `None`, the empty string and `False` are falsy. -/
def pyFalsy : PyVal → Bool
  | PyVal.none => true
  | PyVal.str s => s.isEmpty
  | PyVal.bool b => !b

/-- Python's `\s` on the ASCII range: space, tab, newline, carriage return,
vertical tab, form feed. -/
def isPySpace (c : Char) : Bool :=
  c = ' ' || c = '\t' || c = '\n' || c = '\r' || c = '\x0b' || c = '\x0c'

/-- `str.strip()` on a character list: drop whitespace on both ends. -/
def pyStripL (cs : List Char) : List Char :=
  ((cs.dropWhile isPySpace).reverse.dropWhile isPySpace).reverse

/-- `str.strip()`. -/
def pyStrip (s : String) : String := String.mk (pyStripL s.data)

/-- `', '.join(l)`. -/
def joinStrs : List String → String
  | [] => ""
  | [x] => x
  | x :: y :: rest => x ++ ", " ++ joinStrs (y :: rest)

/-- `', '.join(filter(None, parts)) or None`: keep the truthy (non-empty)
string components and join them with `", "`.  The joined string is empty —
falsy, so replaced by `None` — exactly when no component survives the
filter, because every surviving component is itself non-empty. -/
def joinAddr (parts : List PyVal) : PyVal :=
  let strs := parts.filterMap fun v =>
    match v with
    | PyVal.str s => if s.isEmpty then Option.none else Option.some s
    | _ => Option.none
  match strs with
  | [] => PyVal.none
  | _ => PyVal.str (joinStrs strs)

/-! ### The two regular expressions of `_parse_address_text`

`zip_pattern = r'\b\d{5}(?:-\d{4})?\b'` and
`city_state_pattern = r'([^,]+),\s*([A-Z]{2})\s*\d{5}'`, used with
`re.search` (leftmost match).  Both are embedded as explicit scanners: the
search tries each start position from the left; at a fixed start position
each pattern matches deterministically (the greedy pieces are maximal-munch
and no shorter choice can succeed, since `[^,]+`/`\s*` stop exactly before a
character the following literal requires). -/

/-- Python's `\w` on the ASCII range: letters, digits, underscore. -/
def isWordChar (c : Char) : Bool := c.isAlphanum || c = '_'

/-- Take exactly five ASCII digits off the front of the list. -/
def digits5 : List Char → Option (List Char × List Char)
  | d1 :: d2 :: d3 :: d4 :: d5 :: rest =>
    if d1.isDigit && d2.isDigit && d3.isDigit && d4.isDigit && d5.isDigit then
      Option.some ([d1, d2, d3, d4, d5], rest)
    else Option.none
  | _ => Option.none

/-- Take exactly four ASCII digits off the front of the list. -/
def digits4 : List Char → Option (List Char × List Char)
  | d1 :: d2 :: d3 :: d4 :: rest =>
    if d1.isDigit && d2.isDigit && d3.isDigit && d4.isDigit then
      Option.some ([d1, d2, d3, d4], rest)
    else Option.none
  | _ => Option.none

/-- A `\b` word boundary holds after a word character when the remaining
input is empty or starts with a non-word character. -/
def boundaryAfter : List Char → Bool
  | [] => true
  | c :: _ => !isWordChar c

/-- Match `\d{5}(?:-\d{4})?\b` at the current position (the leading `\b` is
checked by the caller).  The optional group is tried greedily first; on its
failure the engine backtracks to the bare five digits, which then need the
trailing word boundary themselves. -/
def zipMatchAt (cs : List Char) : Option (List Char) :=
  match digits5 cs with
  | Option.none => Option.none
  | Option.some (ds, rest) =>
    let long : Option (List Char) :=
      match rest with
      | '-' :: rest2 =>
        match digits4 rest2 with
        | Option.some (es, rest3) =>
          if boundaryAfter rest3 then Option.some (ds ++ '-' :: es) else Option.none
        | Option.none => Option.none
      | _ => Option.none
    match long with
    | Option.some m => Option.some m
    | Option.none => if boundaryAfter rest then Option.some ds else Option.none

/-- Leftmost search for the ZIP pattern; `prev` is the character before the
current position (`Option.none` at the start of the line), used for the
leading `\b` (the first matched character is a digit, hence a word
character, so the boundary holds iff `prev` is absent or non-word). -/
def zipSearchAux (prev : Option Char) : List Char → Option (List Char)
  | [] => Option.none
  | c :: rest =>
    let bnd := match prev with
      | Option.none => true
      | Option.some p => !isWordChar p
    if bnd then
      match zipMatchAt (c :: rest) with
      | Option.some m => Option.some m
      | Option.none => zipSearchAux (Option.some c) rest
    else
      zipSearchAux (Option.some c) rest

/-- `re.search(r'\b\d{5}(?:-\d{4})?\b', line)`, returning the matched text. -/
def zipSearch (line : String) : Option String :=
  (zipSearchAux Option.none line.data).map String.mk

/-- Match `([^,]+),\s*([A-Z]{2})\s*\d{5}` at the current position, returning
the two capture groups. -/
def cityStateMatchAt (cs : List Char) : Option (List Char × List Char) :=
  let run := cs.takeWhile (fun c => c ≠ ',')
  if run.isEmpty then Option.none
  else
    match cs.dropWhile (fun c => c ≠ ',') with
    | ',' :: r1 =>
      match r1.dropWhile isPySpace with
      | a :: b :: r3 =>
        if a.isUpper && b.isUpper then
          match digits5 (r3.dropWhile isPySpace) with
          | Option.some _ => Option.some (run, [a, b])
          | Option.none => Option.none
        else Option.none
      | _ => Option.none
    | _ => Option.none

/-- Leftmost search for the city/state pattern. -/
def cityStateSearchAux : List Char → Option (List Char × List Char)
  | [] => Option.none
  | c :: rest =>
    match cityStateMatchAt (c :: rest) with
    | Option.some g => Option.some g
    | Option.none => cityStateSearchAux rest

/-- `re.search(r'([^,]+),\s*([A-Z]{2})\s*\d{5}', line)`, returning the two
capture groups as strings. -/
def cityStateSearch (line : String) : Option (String × String) :=
  (cityStateSearchAux line.data).map fun g => (String.mk g.1, String.mk g.2)

/-! ### `_parse_address_text` (the local-OCR heuristic parser) -/

/-- The dictionary literal `_parse_address_text` starts from: all seven
fields `None`. -/
def base_record : PyDict :=
  [("sender_name", PyVal.none), ("street", PyVal.none), ("city", PyVal.none),
   ("state", PyVal.none), ("zip", PyVal.none), ("full_address", PyVal.none),
   ("category", PyVal.none)]

/-- The `for line in lines` loop: on the first line whose ZIP search
matches, set `zip`, then try the city/state pattern on the same line
(setting `city` and `state` on success, both stripped), and `break`. -/
def zip_scan (d : PyDict) : List String → PyDict
  | [] => d
  | line :: rest =>
    match zipSearch line with
    | Option.none => zip_scan d rest
    | Option.some z =>
      let d1 := dset d "zip" (PyVal.str z)
      match cityStateSearch line with
      | Option.none => d1
      | Option.some g =>
        dset (dset d1 "city" (PyVal.str (pyStrip g.1))) "state" (PyVal.str (pyStrip g.2))

/-- `text.split('\n')` on the character list: split at every newline,
keeping empty segments (Python keeps them; the caller filters). -/
def splitLinesL : List Char → List (List Char)
  | [] => [[]]
  | c :: rest =>
    match splitLinesL rest with
    | [] => [[]]
    | cur :: done => if c = '\n' then [] :: cur :: done else (c :: cur) :: done

/-- `[line.strip() for line in text.split('\n') if line.strip()]`. -/
def lines_of (text : String) : List String :=
  (((splitLinesL text.data).map pyStripL).filter (fun l => !l.isEmpty)).map String.mk

/-- After the zip loop: line 0 (when present) is assigned to
`sender_name`, then line 1 (when present) to `street`. -/
def set_sender_street (lines : List String) (d : PyDict) : PyDict :=
  match lines with
  | [] => d
  | [l0] => dset d "sender_name" (PyVal.str l0)
  | l0 :: l1 :: _ => dset (dset d "sender_name" (PyVal.str l0)) "street" (PyVal.str l1)

/-- The final assignment `result['full_address'] = ', '.join(...) or None`. -/
def finish_full_address (d : PyDict) : PyDict :=
  dset d "full_address"
    (joinAddr [dget d "street", dget d "city", dget d "state", dget d "zip"])

/-- `MailScanner._parse_address_text`: heuristic parse of raw OCR text. -/
def parse_address_text (text : String) : PyDict :=
  finish_full_address
    (set_sender_street (lines_of text) (zip_scan base_record (lines_of text)))

/-! ### `_parse_gemini_response` (vision-response parsing)

The stdlib `json.loads` is an external dependency; it enters the model as a
function `String → Option JObj`, where `Option.none` models a raised
`json.JSONDecodeError` and `Option.some obj` a successfully decoded JSON
object whose values are strings or `null` (the only shapes the fixed
six-key schema produces; a decoded value of any other JSON type would fault
later in the Python code and is outside the model).  `jparse` below is a
concrete executable instance used for witnesses. -/

/-- A decoded JSON object: keys mapped to a string or JSON `null`. -/
def JObj := List (String × Option String)

instance : DecidableEq JObj := by
  unfold JObj
  infer_instance

/-- `data.get(k)` on a decoded JSON object: `None` when the key is absent or
its value is JSON `null`. -/
def jget (obj : JObj) (k : String) : PyVal :=
  match obj with
  | [] => PyVal.none
  | (k', v) :: rest =>
    if k' = k then
      match v with
      | Option.some s => PyVal.str s
      | Option.none => PyVal.none
    else jget rest k

/-- `re.sub(r'^```json?\s*', '', t)`: the regex literally requires the
letters `jso` with an optional `n` after the backticks (greedily taking the
`n`), then greedy whitespace; when it does not match, the text is
unchanged. -/
def stripLeadingFenceL (cs : List Char) : List Char :=
  if "```json".data.isPrefixOf cs then (cs.drop 7).dropWhile isPySpace
  else if "```jso".data.isPrefixOf cs then (cs.drop 6).dropWhile isPySpace
  else cs

/-- `re.sub(r'\s*```$', '', t)` on a string with no trailing whitespace:
when the text ends with three backticks, remove them together with the
whitespace run before them; otherwise unchanged. -/
def stripTrailingFenceL (cs : List Char) : List Char :=
  if "```".data.isSuffixOf cs then ((cs.reverse.drop 3).dropWhile isPySpace).reverse
  else cs

/-- The preprocessing of `_parse_gemini_response`: strip outer whitespace
and, when the result starts with three backticks, apply the two fence
substitutions. -/
def clean_responseL (cs : List Char) : List Char :=
  let t := pyStripL cs
  if "```".data.isPrefixOf t then stripTrailingFenceL (stripLeadingFenceL t) else t

/-- String-level wrapper for `clean_responseL`. -/
def clean_response (s : String) : String := String.mk (clean_responseL s.data)

/-- The all-`None` dictionary returned on a JSON-parse failure. -/
def all_null_fields : PyDict :=
  [("sender_name", PyVal.none), ("street", PyVal.none), ("city", PyVal.none),
   ("state", PyVal.none), ("zip", PyVal.none), ("category", PyVal.none)]

/-- `MailScanner._parse_gemini_response`: clean the response text, attempt
the JSON parse, and on failure return the all-`None` record instead of
raising. -/
def parse_gemini_response (jsonLoads : String → Option JObj) (response_text : String) : PyDict :=
  match jsonLoads (clean_response response_text) with
  | Option.some data =>
    [("sender_name", jget data "sender_name"), ("street", jget data "street"),
     ("city", jget data "city"), ("state", jget data "state"),
     ("zip", jget data "zip"), ("category", jget data "category")]
  | Option.none => all_null_fields

/-- The record built by `_scan_with_gemini` from a model response: the
parsed fields, then `result['method'] = 'gemini'`, then `full_address`
joined from the four address components (the same assignment
`finish_full_address` models in `_parse_address_text`). -/
def gemini_record (jsonLoads : String → Option JObj) (response_text : String) : PyDict :=
  finish_full_address
    (dset (parse_gemini_response jsonLoads response_text) "method" (PyVal.str "gemini"))

/-! ### A concrete executable model of `json.loads`

Covers flat JSON objects whose values are escape-free strings or `null` —
the shape of every response the fixed prompt asks for.  Anything outside
this fragment yields `Option.none` (a parse failure).  Used to instantiate
the abstract `jsonLoads` parameter in witnesses and counterexamples. -/

/-- Read a JSON string body up to the closing quote (no escapes). -/
def jstrAux : List Char → Option (List Char × List Char)
  | [] => Option.none
  | c :: rest =>
    if c = '"' then Option.some ([], rest)
    else if c = '\\' then Option.none
    else
      match jstrAux rest with
      | Option.some (s, r) => Option.some (c :: s, r)
      | Option.none => Option.none

/-- Read a JSON value: a string literal or `null`. -/
def jval : List Char → Option (Option String × List Char)
  | '"' :: rest => (jstrAux rest).map fun p => (Option.some (String.mk p.1), p.2)
  | 'n' :: 'u' :: 'l' :: 'l' :: rest => Option.some (Option.none, rest)
  | _ => Option.none

/-- Read one `"key": value` pair. -/
def jpair (cs : List Char) : Option ((String × Option String) × List Char) :=
  match cs.dropWhile isPySpace with
  | '"' :: rest =>
    match jstrAux rest with
    | Option.some (k, r1) =>
      match r1.dropWhile isPySpace with
      | ':' :: r2 =>
        match jval (r2.dropWhile isPySpace) with
        | Option.some (v, r3) => Option.some ((String.mk k, v), r3)
        | Option.none => Option.none
      | _ => Option.none
    | Option.none => Option.none
  | _ => Option.none

/-- Read a non-empty comma-separated member list up to the closing brace;
`fuel` bounds the recursion by the input length. -/
def jmembers : Nat → List Char → Option (JObj × List Char)
  | 0, _ => Option.none
  | fuel + 1, cs =>
    match jpair cs with
    | Option.none => Option.none
    | Option.some (kv, rest) =>
      match rest.dropWhile isPySpace with
      | '\x7d' :: r => Option.some ([kv], r)
      | ',' :: r =>
        match jmembers fuel r with
        | Option.some (obj, r2) => Option.some (kv :: obj, r2)
        | Option.none => Option.none
      | _ => Option.none

/-- The concrete `json.loads` model on the flat-object fragment. -/
def jparse (s : String) : Option JObj :=
  match s.data.dropWhile isPySpace with
  | '\x7b' :: rest =>
    match rest.dropWhile isPySpace with
    | '\x7d' :: r => if r.dropWhile isPySpace = [] then Option.some [] else Option.none
    | _ =>
      match jmembers (rest.length + 1) rest with
      | Option.some (obj, r) =>
        if r.dropWhile isPySpace = [] then Option.some obj else Option.none
      | Option.none => Option.none
  | _ => Option.none

/-! ### `verify_address` (the Smarty address verifier)

The hosted service is abstracted as a function from the four lookup fields
to either an exception (`SmartyException` or any other exception raised
inside the `try` block) or the candidate list `lookup.result`.  The SDK
candidate fields are plain strings; an absent plus-4 extension is the empty
string (falsy in the `if components.plus4_code` check). -/

/-- The `components` attribute of a Smarty candidate. -/
structure SmartyComponents where
  city_name : String
  state_abbreviation : String
  zipcode : String
  plus4_code : String
deriving DecidableEq, Repr

/-- The `analysis` attribute of a Smarty candidate. -/
structure SmartyAnalysis where
  dpv_match_code : String
deriving DecidableEq, Repr

/-- One candidate of `lookup.result`. -/
structure SmartyCandidate where
  delivery_line_1 : String
  last_line : String
  components : SmartyComponents
  analysis : SmartyAnalysis
deriving DecidableEq, Repr

/-- The exceptions the `try` block distinguishes. -/
inductive SmartyErr where
  | smarty : SmartyErr
  | other : SmartyErr
deriving DecidableEq, Repr

/-- The verification service: maps the four lookup fields to an exception or
the candidate list. -/
abbrev SmartyService := PyVal → PyVal → PyVal → PyVal → Except SmartyErr (List SmartyCandidate)

/-- The `default_result` dictionary of `verify_address`. -/
def default_result : PyDict :=
  [("verified", PyVal.bool false), ("verification_status", PyVal.str "error"),
   ("verified_street", PyVal.none), ("verified_city", PyVal.none),
   ("verified_state", PyVal.none), ("verified_zip", PyVal.none),
   ("verified_full_address", PyVal.none)]

/-- `MailScanner.verify_address`: check the street precondition, then the
configured client, then call the service and map its response. -/
def verify_address (smarty_client : Option SmartyService)
    (street city state zipcode : PyVal) : PyDict :=
  if pyFalsy street then
    dset default_result "verification_status" (PyVal.str "insufficient_data")
  else
    match smarty_client with
    | Option.none => dset default_result "verification_status" (PyVal.str "not_configured")
    | Option.some svc =>
      match svc street city state zipcode with
      | Except.error SmartyErr.smarty =>
        [("verified", PyVal.bool false), ("verification_status", PyVal.str "error"),
         ("verified_street", PyVal.none), ("verified_city", PyVal.none),
         ("verified_state", PyVal.none), ("verified_zip", PyVal.none),
         ("verified_full_address", PyVal.none)]
      | Except.error SmartyErr.other => default_result
      | Except.ok [] =>
        [("verified", PyVal.bool false), ("verification_status", PyVal.str "invalid"),
         ("verified_street", PyVal.none), ("verified_city", PyVal.none),
         ("verified_state", PyVal.none), ("verified_zip", PyVal.none),
         ("verified_full_address", PyVal.none)]
      | Except.ok (candidate :: _) =>
        let verified_street := candidate.delivery_line_1
        let comps := candidate.components
        let verified_zip :=
          if comps.plus4_code ≠ "" then comps.zipcode ++ "-" ++ comps.plus4_code
          else comps.zipcode
        let verified_full :=
          verified_street ++ ", " ++ comps.city_name ++ ", " ++
            comps.state_abbreviation ++ " " ++ verified_zip
        let code := candidate.analysis.dpv_match_code
        let outcome : String × Bool :=
          if code = "Y" then ("verified", true)
          else if code = "D" then ("verified_missing_secondary", true)
          else if code = "S" then ("verified_missing_secondary", true)
          else ("failed", false)
        [("verified", PyVal.bool outcome.2),
         ("verification_status", PyVal.str outcome.1),
         ("verified_street", PyVal.str verified_street),
         ("verified_city", PyVal.str comps.city_name),
         ("verified_state", PyVal.str comps.state_abbreviation),
         ("verified_zip", PyVal.str verified_zip),
         ("verified_full_address", PyVal.str verified_full)]

/-! ### `scan_mail` (the orchestrator) -/

/-- The dictionary merged in when Smarty verification is disabled. -/
def not_attempted_result : PyDict :=
  [("verified", PyVal.none), ("verification_status", PyVal.str "not_attempted"),
   ("verified_street", PyVal.none), ("verified_city", PyVal.none),
   ("verified_state", PyVal.none), ("verified_zip", PyVal.none),
   ("verified_full_address", PyVal.none)]

/-- Exceptions that can escape the pipeline. -/
inductive PyError where
  /-- `NameError`: the fallback line of `_scan_with_gemini` evaluates the
  unbound name `image_path`. -/
  | nameError : PyError
  /-- The original exception of the failed vision call, re-raised. -/
  | visionFailure : PyError
  /-- The exception raised inside `_scan_with_tesseract`, re-raised. -/
  | tesseractFailure : PyError
  /-- `RuntimeError("No OCR method available...")`. -/
  | noMethod : PyError
deriving DecidableEq, Repr

/-- One scan's environment: configuration plus the behavior of each external
collaborator during this scan (the image has already been loaded; the
file-existence check of `scan_mail` precedes everything modelled here). -/
structure ScanEnv where
  /-- `self.use_gemini`. -/
  use_gemini : Bool
  /-- The module flag `TESSERACT_AVAILABLE`. -/
  tesseract_available : Bool
  /-- `self.use_smarty`. -/
  use_smarty : Bool
  /-- The vision call `self.model.generate_content(...).text`:
  either the response text or a raised transport/invocation error. -/
  visionResponse : Except Unit String
  /-- `pytesseract.image_to_string(image)`: the OCR text or a raised error. -/
  ocrText : Except Unit String
  /-- The stdlib `json.loads` (`Option.none` = `JSONDecodeError`). -/
  jsonLoads : String → Option JObj
  /-- `self.smarty_client`. -/
  smarty_client : Option SmartyService

/-- `MailScanner._scan_with_tesseract`: run OCR, parse the text, tag the
method; any OCR failure is re-raised. -/
def scan_with_tesseract (env : ScanEnv) : Except PyError PyDict :=
  match env.ocrText with
  | Except.error _ => Except.error PyError.tesseractFailure
  | Except.ok text => Except.ok (dset (parse_address_text text) "method" (PyVal.str "tesseract"))

/-- `MailScanner._scan_with_gemini`: on a successful vision call, parse the
response and build the record.  When the call raises and Tesseract is
available, the handler evaluates `self._scan_with_tesseract(image_path)` —
but `image_path` is an unbound name in that scope (the parameter is
`image_source`), so the line raises `NameError` instead of falling back;
without Tesseract the original exception is re-raised. -/
def scan_with_gemini (env : ScanEnv) : Except PyError PyDict :=
  match env.visionResponse with
  | Except.ok text => Except.ok (gemini_record env.jsonLoads text)
  | Except.error _ =>
    if env.tesseract_available then Except.error PyError.nameError
    else Except.error PyError.visionFailure

/-- `MailScanner.scan_mail`: choose the extractor, then merge in the
verification fields (from `verify_address` or the `not_attempted`
defaults). -/
def scan_mail (env : ScanEnv) : Except PyError PyDict :=
  match
    (if env.use_gemini then scan_with_gemini env
     else if env.tesseract_available then scan_with_tesseract env
     else Except.error PyError.noMethod) with
  | Except.error e => Except.error e
  | Except.ok result =>
    if env.use_smarty then
      Except.ok (dupdate result
        (verify_address env.smarty_client (dget result "street") (dget result "city")
          (dget result "state") (dget result "zip")))
    else
      Except.ok (dupdate result not_attempted_result)

/-! ## Dictionary lemmas -/

theorem dget_dset_self (d : PyDict) (k : String) (v : PyVal) :
    dget (dset d k v) k = v := by
  induction d with
  | nil => simp [dset, dget]
  | cons kv rest ih =>
    obtain ⟨k', v'⟩ := kv
    by_cases h : k' = k
    · simp [dset, dget, h]
    · simp [dset, dget, h, ih]

theorem dget_dset_ne (d : PyDict) (k k' : String) (v : PyVal) (h : k ≠ k') :
    dget (dset d k v) k' = dget d k' := by
  induction d with
  | nil => simp [dset, dget, h]
  | cons kv rest ih =>
    obtain ⟨k0, v0⟩ := kv
    by_cases h0 : k0 = k
    · simp [dset, dget, h0, h]
    · simp [dset, dget, h0, ih]

theorem dkeys_nil : dkeys [] = [] := rfl

theorem dkeys_cons (k : String) (v : PyVal) (d : PyDict) :
    dkeys ((k, v) :: d) = k :: dkeys d := rfl

theorem mem_dkeys_dset (d : PyDict) (k k' : String) (v : PyVal) :
    k' ∈ dkeys (dset d k v) ↔ k' = k ∨ k' ∈ dkeys d := by
  induction d with
  | nil => simp [dset, dkeys]
  | cons kv rest ih =>
    obtain ⟨k0, v0⟩ := kv
    show k' ∈ dkeys (if k0 = k then (k, v) :: rest else (k0, v0) :: dset rest k v) ↔ _
    by_cases h0 : k0 = k
    · rw [if_pos h0]
      subst h0
      simp only [dkeys_cons, List.mem_cons]
      tauto
    · rw [if_neg h0]
      simp only [dkeys_cons, List.mem_cons, ih]
      tauto

theorem dupdate_nil (d : PyDict) : dupdate d [] = d := rfl

theorem dupdate_cons (d : PyDict) (k : String) (v : PyVal) (u : PyDict) :
    dupdate d ((k, v) :: u) = dupdate (dset d k v) u := rfl

theorem mem_dkeys_dupdate (d u : PyDict) (k : String) :
    k ∈ dkeys (dupdate d u) ↔ k ∈ dkeys d ∨ k ∈ dkeys u := by
  induction u generalizing d with
  | nil => simp [dupdate_nil, dkeys_nil]
  | cons kv rest ih =>
    obtain ⟨k0, v0⟩ := kv
    rw [dupdate_cons, ih, mem_dkeys_dset, dkeys_cons, List.mem_cons]
    tauto

theorem dget_dupdate_not_mem (d u : PyDict) (k : String) (h : k ∉ dkeys u) :
    dget (dupdate d u) k = dget d k := by
  induction u generalizing d with
  | nil => rw [dupdate_nil]
  | cons kv rest ih =>
    obtain ⟨k0, v0⟩ := kv
    rw [dkeys_cons, List.mem_cons] at h
    push_neg at h
    rw [dupdate_cons, ih _ h.2, dget_dset_ne _ _ _ _ (fun hk => h.1 hk.symm)]

theorem dget_dupdate_mem (d u : PyDict) (k : String) (hk : k ∈ dkeys u)
    (hnd : (dkeys u).Nodup) : dget (dupdate d u) k = dget u k := by
  induction u generalizing d with
  | nil => simp [dkeys_nil] at hk
  | cons kv rest ih =>
    obtain ⟨k0, v0⟩ := kv
    rw [dkeys_cons, List.nodup_cons] at hnd
    rw [dkeys_cons, List.mem_cons] at hk
    rcases hk with h0 | h0
    · subst h0
      rw [dupdate_cons, dget_dupdate_not_mem _ _ _ hnd.1, dget_dset_self]
      simp [dget]
    · have hne : k0 ≠ k := by
        rintro rfl
        exact hnd.1 h0
      rw [dupdate_cons, ih _ h0 hnd.2]
      simp [dget, hne]

/-! ## Claim C3: `full_address` is the join of the non-empty components -/

/-- Stated from the spec's words: the comma-plus-space join of the non-empty
members of `\x7bstreet, city, state, zip\x7d` taken in that order, `None`
when all four components are empty or absent. -/
def spec_full_address (street city state zip : PyVal) : PyVal :=
  let members := [street, city, state, zip].filterMap fun v =>
    match v with
    | PyVal.str s => if s.isEmpty then Option.none else Option.some s
    | _ => Option.none
  if members.isEmpty then PyVal.none else PyVal.str (joinStrs members)

theorem spec_full_address_eq_joinAddr (street city state zip : PyVal) :
    spec_full_address street city state zip = joinAddr [street, city, state, zip] := by
  unfold spec_full_address joinAddr
  rcases h : [street, city, state, zip].filterMap _ with _ | ⟨x, rest⟩ <;> simp [h]

/-- Setting `full_address` from the four components makes the stored value
the spec-side join of the stored components. -/
theorem dget_full_address_join (d0 : PyDict) :
    dget (dset d0 "full_address"
        (joinAddr [dget d0 "street", dget d0 "city", dget d0 "state", dget d0 "zip"]))
      "full_address" =
    spec_full_address
      (dget (dset d0 "full_address"
        (joinAddr [dget d0 "street", dget d0 "city", dget d0 "state", dget d0 "zip"])) "street")
      (dget (dset d0 "full_address"
        (joinAddr [dget d0 "street", dget d0 "city", dget d0 "state", dget d0 "zip"])) "city")
      (dget (dset d0 "full_address"
        (joinAddr [dget d0 "street", dget d0 "city", dget d0 "state", dget d0 "zip"])) "state")
      (dget (dset d0 "full_address"
        (joinAddr [dget d0 "street", dget d0 "city", dget d0 "state", dget d0 "zip"])) "zip") := by
  rw [dget_dset_self, spec_full_address_eq_joinAddr,
    dget_dset_ne _ _ _ _ (by decide), dget_dset_ne _ _ _ _ (by decide),
    dget_dset_ne _ _ _ _ (by decide), dget_dset_ne _ _ _ _ (by decide)]

/-- Claim C3: for every ScanRecord produced by either extractor path,
`full_address` equals the comma-plus-space join of the non-empty members of
`\x7bstreet, city, state, zip\x7d` taken in that order, and is null when all
four components are empty or absent. -/
theorem claim_c3 :
    (∀ (j : String → Option JObj) (r : String),
      dget (gemini_record j r) "full_address" =
        spec_full_address (dget (gemini_record j r) "street")
          (dget (gemini_record j r) "city") (dget (gemini_record j r) "state")
          (dget (gemini_record j r) "zip")) ∧
    (∀ t : String,
      dget (parse_address_text t) "full_address" =
        spec_full_address (dget (parse_address_text t) "street")
          (dget (parse_address_text t) "city") (dget (parse_address_text t) "state")
          (dget (parse_address_text t) "zip")) :=
  ⟨fun j r => dget_full_address_join (dset (parse_gemini_response j r) "method" (PyVal.str "gemini")),
   fun t => dget_full_address_join (set_sender_street (lines_of t) (zip_scan base_record (lines_of t)))⟩

/-! ## Verifier lemmas -/

/-- The `verified_zip` built from a candidate: base zip, or base zip `-`
plus4 when a plus-4 extension is present. -/
def candidate_zip (cand : SmartyCandidate) : String :=
  if cand.components.plus4_code ≠ "" then
    cand.components.zipcode ++ "-" ++ cand.components.plus4_code
  else cand.components.zipcode

/-- The `verified_full_address` built from a candidate. -/
def candidate_full (cand : SmartyCandidate) : String :=
  cand.delivery_line_1 ++ ", " ++ cand.components.city_name ++ ", " ++
    cand.components.state_abbreviation ++ " " ++ candidate_zip cand

/-- The status string the dpv-match-code mapping produces. -/
def dpv_status (code : String) : String :=
  if code = "Y" then "verified"
  else if code = "D" then "verified_missing_secondary"
  else if code = "S" then "verified_missing_secondary"
  else "failed"

/-- The boolean the dpv-match-code mapping produces. -/
def dpv_verified (code : String) : Bool :=
  if code = "Y" then true
  else if code = "D" then true
  else if code = "S" then true
  else false

/-- When the service returns a candidate list with a first candidate, the
outcome dictionary of `verify_address` is fully determined by that
candidate. -/
theorem verify_address_candidate (svc : SmartyService) (street city state zipcode : PyVal)
    (cand : SmartyCandidate) (rest : List SmartyCandidate)
    (hs : pyFalsy street = false)
    (hsvc : svc street city state zipcode = Except.ok (cand :: rest)) :
    verify_address (Option.some svc) street city state zipcode =
      [("verified", PyVal.bool (dpv_verified cand.analysis.dpv_match_code)),
       ("verification_status", PyVal.str (dpv_status cand.analysis.dpv_match_code)),
       ("verified_street", PyVal.str cand.delivery_line_1),
       ("verified_city", PyVal.str cand.components.city_name),
       ("verified_state", PyVal.str cand.components.state_abbreviation),
       ("verified_zip", PyVal.str (candidate_zip cand)),
       ("verified_full_address", PyVal.str (candidate_full cand))] := by
  unfold verify_address
  rw [hs]
  simp only [Bool.false_eq_true, if_false]
  rw [hsvc]
  unfold dpv_verified dpv_status candidate_full candidate_zip
  by_cases h1 : cand.analysis.dpv_match_code = "Y" <;>
    by_cases h2 : cand.analysis.dpv_match_code = "D" <;>
      by_cases h3 : cand.analysis.dpv_match_code = "S" <;>
        simp [h1, h2, h3]

/-- The outcome dictionary when the street precondition fails. -/
theorem verify_address_insufficient (client : Option SmartyService)
    (street city state zipcode : PyVal) (hs : pyFalsy street = true) :
    verify_address client street city state zipcode =
      [("verified", PyVal.bool false),
       ("verification_status", PyVal.str "insufficient_data"),
       ("verified_street", PyVal.none), ("verified_city", PyVal.none),
       ("verified_state", PyVal.none), ("verified_zip", PyVal.none),
       ("verified_full_address", PyVal.none)] := by
  unfold verify_address
  rw [hs]
  rfl

/-- The outcome dictionary when no client is configured. -/
theorem verify_address_not_configured (street city state zipcode : PyVal)
    (hs : pyFalsy street = false) :
    verify_address Option.none street city state zipcode =
      [("verified", PyVal.bool false),
       ("verification_status", PyVal.str "not_configured"),
       ("verified_street", PyVal.none), ("verified_city", PyVal.none),
       ("verified_state", PyVal.none), ("verified_zip", PyVal.none),
       ("verified_full_address", PyVal.none)] := by
  unfold verify_address
  rw [hs]
  rfl

/-- The outcome dictionary when the service raises: both exception handlers
return the `error` record. -/
theorem verify_address_err (svc : SmartyService) (street city state zipcode : PyVal)
    (e : SmartyErr) (hs : pyFalsy street = false)
    (hr : svc street city state zipcode = Except.error e) :
    verify_address (Option.some svc) street city state zipcode = default_result := by
  unfold verify_address
  rw [hs]
  simp only [Bool.false_eq_true, if_false]
  rw [hr]
  cases e <;> rfl

/-- The outcome dictionary when the service returns no candidate. -/
theorem verify_address_invalid (svc : SmartyService) (street city state zipcode : PyVal)
    (hs : pyFalsy street = false)
    (hr : svc street city state zipcode = Except.ok []) :
    verify_address (Option.some svc) street city state zipcode =
      [("verified", PyVal.bool false),
       ("verification_status", PyVal.str "invalid"),
       ("verified_street", PyVal.none), ("verified_city", PyVal.none),
       ("verified_state", PyVal.none), ("verified_zip", PyVal.none),
       ("verified_full_address", PyVal.none)] := by
  unfold verify_address
  rw [hs]
  simp only [Bool.false_eq_true, if_false]
  rw [hr]

/-! ## Claim C4: the candidate outcome is determined by the dpv match code -/

/-- Claim C4: for every verify call in which the service returns a
candidate, the outcome is determined solely by the candidate's
delivery-point-validation code: `Y` yields status `verified` with
`verified = true`; `D` or `S` yields `verified_missing_secondary` with
`verified = true`; any other code yields `failed` with `verified = false`. -/
theorem claim_c4 (svc : SmartyService) (street city state zipcode : PyVal)
    (cand : SmartyCandidate) (rest : List SmartyCandidate)
    (hs : pyFalsy street = false)
    (hsvc : svc street city state zipcode = Except.ok (cand :: rest)) :
    (cand.analysis.dpv_match_code = "Y" →
      dget (verify_address (Option.some svc) street city state zipcode) "verification_status" =
        PyVal.str "verified" ∧
      dget (verify_address (Option.some svc) street city state zipcode) "verified" =
        PyVal.bool true) ∧
    ((cand.analysis.dpv_match_code = "D" ∨ cand.analysis.dpv_match_code = "S") →
      dget (verify_address (Option.some svc) street city state zipcode) "verification_status" =
        PyVal.str "verified_missing_secondary" ∧
      dget (verify_address (Option.some svc) street city state zipcode) "verified" =
        PyVal.bool true) ∧
    (cand.analysis.dpv_match_code ≠ "Y" → cand.analysis.dpv_match_code ≠ "D" →
      cand.analysis.dpv_match_code ≠ "S" →
      dget (verify_address (Option.some svc) street city state zipcode) "verification_status" =
        PyVal.str "failed" ∧
      dget (verify_address (Option.some svc) street city state zipcode) "verified" =
        PyVal.bool false) := by
  rw [verify_address_candidate svc street city state zipcode cand rest hs hsvc]
  refine ⟨fun hY => ?_, fun hDS => ?_, fun hY hD hS => ?_⟩
  · simp [dget, dpv_status, dpv_verified, hY]
  · rcases hDS with hD | hS
    · simp [dget, dpv_status, dpv_verified, hD]
    · simp [dget, dpv_status, dpv_verified, hS]
  · simp [dget, dpv_status, dpv_verified, hY, hD, hS]

/-- A candidate whose dpv match code is `N` (not deliverable). -/
def candN : SmartyCandidate :=
  { delivery_line_1 := "10 MAIN ST", last_line := "SPRINGFIELD IL 62704",
    components := { city_name := "SPRINGFIELD", state_abbreviation := "IL",
                    zipcode := "62704", plus4_code := "" },
    analysis := { dpv_match_code := "N" } }

/-- A deterministic stub service returning `candN`. -/
def svcN : SmartyService := fun _ _ _ _ => Except.ok [candN]

/-- Concrete instance of C4 with a dpv match code of `N`. -/
theorem claim_c4_witness :
    dget (verify_address (Option.some svcN) (PyVal.str "10 Main St")
        (PyVal.str "Springfield") (PyVal.str "IL") (PyVal.str "62704"))
      "verification_status" = PyVal.str "failed" ∧
    dget (verify_address (Option.some svcN) (PyVal.str "10 Main St")
        (PyVal.str "Springfield") (PyVal.str "IL") (PyVal.str "62704"))
      "verified" = PyVal.bool false :=
  (claim_c4 svcN (PyVal.str "10 Main St") (PyVal.str "Springfield") (PyVal.str "IL")
      (PyVal.str "62704") candN [] (by decide) rfl).2.2
    (by decide) (by decide) (by decide)

/-! ## Claim C5: the street precondition -/

/-- Claim C5: for every verify call, an empty or absent street yields status
`insufficient_data` with no outbound service call — the outcome does not
depend on the configured client at all, so this holds in particular when
credentials are missing (the street check precedes the `not_configured`
check); conversely, with a non-empty street the status is never
`insufficient_data`. -/
theorem claim_c5 (client : Option SmartyService) (street city state zipcode : PyVal) :
    (pyFalsy street = true →
      verify_address client street city state zipcode =
        [("verified", PyVal.bool false),
         ("verification_status", PyVal.str "insufficient_data"),
         ("verified_street", PyVal.none), ("verified_city", PyVal.none),
         ("verified_state", PyVal.none), ("verified_zip", PyVal.none),
         ("verified_full_address", PyVal.none)] ∧
      ∀ client' : Option SmartyService,
        verify_address client' street city state zipcode =
          verify_address client street city state zipcode) ∧
    (pyFalsy street = false →
      dget (verify_address client street city state zipcode) "verification_status" ≠
        PyVal.str "insufficient_data") := by
  constructor
  · intro hs
    refine ⟨verify_address_insufficient client street city state zipcode hs, fun client' => ?_⟩
    rw [verify_address_insufficient client street city state zipcode hs,
      verify_address_insufficient client' street city state zipcode hs]
  · intro hs
    cases client with
    | none =>
      rw [verify_address_not_configured street city state zipcode hs]
      decide
    | some svc =>
      cases hr : svc street city state zipcode with
      | error e =>
        rw [verify_address_err svc street city state zipcode e hs hr]
        decide
      | ok l =>
        cases l with
        | nil =>
          rw [verify_address_invalid svc street city state zipcode hs hr]
          decide
        | cons cand rest =>
          rw [verify_address_candidate svc street city state zipcode cand rest hs hr]
          simp only [dget, if_pos rfl, ne_eq, PyVal.str.injEq]
          unfold dpv_status
          split_ifs <;> simp

/-- Concrete instance of C5: a `None` street short-circuits to
`insufficient_data` even with no configured client. -/
theorem claim_c5_witness :
    verify_address Option.none PyVal.none PyVal.none PyVal.none PyVal.none =
      [("verified", PyVal.bool false),
       ("verification_status", PyVal.str "insufficient_data"),
       ("verified_street", PyVal.none), ("verified_city", PyVal.none),
       ("verified_state", PyVal.none), ("verified_zip", PyVal.none),
       ("verified_full_address", PyVal.none)] ∧
    dget (verify_address (Option.some svcN) (PyVal.str "10 Main St") PyVal.none
        PyVal.none PyVal.none) "verification_status" ≠ PyVal.str "insufficient_data" :=
  ⟨((claim_c5 Option.none PyVal.none PyVal.none PyVal.none PyVal.none).1 (by decide)).1,
   (claim_c5 (Option.some svcN) (PyVal.str "10 Main St") PyVal.none PyVal.none
      PyVal.none).2 (by decide)⟩

/-! ## Claim C7: the verified components come from the candidate -/

/-- Claim C7: for every verify call that yields a candidate,
`verified_street` is the candidate's delivery line, `verified_city` and
`verified_state` come from its components, `verified_zip` is the base zip
alone or base zip `-` plus4 when a plus-4 extension is present, and
`verified_full_address` is `street, city, state zip` built from the
verified components; with dpv code `Y` the status is `verified` and
`verified` is true. -/
theorem claim_c7 (svc : SmartyService) (street city state zipcode : PyVal)
    (cand : SmartyCandidate) (rest : List SmartyCandidate)
    (hs : pyFalsy street = false)
    (hsvc : svc street city state zipcode = Except.ok (cand :: rest)) :
    dget (verify_address (Option.some svc) street city state zipcode) "verified_street" =
      PyVal.str cand.delivery_line_1 ∧
    dget (verify_address (Option.some svc) street city state zipcode) "verified_city" =
      PyVal.str cand.components.city_name ∧
    dget (verify_address (Option.some svc) street city state zipcode) "verified_state" =
      PyVal.str cand.components.state_abbreviation ∧
    dget (verify_address (Option.some svc) street city state zipcode) "verified_zip" =
      PyVal.str (candidate_zip cand) ∧
    dget (verify_address (Option.some svc) street city state zipcode) "verified_full_address" =
      PyVal.str (cand.delivery_line_1 ++ ", " ++ cand.components.city_name ++ ", " ++
        cand.components.state_abbreviation ++ " " ++ candidate_zip cand) ∧
    (cand.analysis.dpv_match_code = "Y" →
      dget (verify_address (Option.some svc) street city state zipcode) "verification_status" =
        PyVal.str "verified" ∧
      dget (verify_address (Option.some svc) street city state zipcode) "verified" =
        PyVal.bool true) := by
  rw [verify_address_candidate svc street city state zipcode cand rest hs hsvc]
  refine ⟨by simp [dget], by simp [dget], by simp [dget], by simp [dget],
    by simp [dget, candidate_full], fun hY => ?_⟩
  simp [dget, dpv_status, dpv_verified, hY]

/-- The Cupertino candidate of the C7 scenario. -/
def candCupertino : SmartyCandidate :=
  { delivery_line_1 := "1 INFINITE LOOP", last_line := "CUPERTINO CA 95014",
    components := { city_name := "CUPERTINO", state_abbreviation := "CA",
                    zipcode := "95014", plus4_code := "" },
    analysis := { dpv_match_code := "Y" } }

/-- A deterministic stub service returning the Cupertino candidate. -/
def svcCupertino : SmartyService := fun _ _ _ _ => Except.ok [candCupertino]

/-- Concrete instance of C7: the scenario street=`1 Infinite Loop`,
city=`Cupertino`, state=`CA`, zip=`95014`, candidate delivery line
`1 INFINITE LOOP` with dpv code `Y`. -/
theorem claim_c7_witness :
    dget (verify_address (Option.some svcCupertino) (PyVal.str "1 Infinite Loop")
        (PyVal.str "Cupertino") (PyVal.str "CA") (PyVal.str "95014"))
      "verified_full_address" = PyVal.str "1 INFINITE LOOP, CUPERTINO, CA 95014" ∧
    dget (verify_address (Option.some svcCupertino) (PyVal.str "1 Infinite Loop")
        (PyVal.str "Cupertino") (PyVal.str "CA") (PyVal.str "95014"))
      "verification_status" = PyVal.str "verified" ∧
    dget (verify_address (Option.some svcCupertino) (PyVal.str "1 Infinite Loop")
        (PyVal.str "Cupertino") (PyVal.str "CA") (PyVal.str "95014"))
      "verified" = PyVal.bool true := by
  have h := claim_c7 svcCupertino (PyVal.str "1 Infinite Loop") (PyVal.str "Cupertino")
    (PyVal.str "CA") (PyVal.str "95014") candCupertino [] (by decide) rfl
  have hY := h.2.2.2.2.2 (by decide)
  refine ⟨?_, hY.1, hY.2⟩
  have hfull := h.2.2.2.2.1
  rw [hfull]
  decide

/-! ## Claim C6: `verified` is true exactly for the two verified statuses -/

/-- The seven verification keys, in the order every outcome dictionary
lists them. -/
def verification_keys : List String :=
  ["verified", "verification_status", "verified_street", "verified_city",
   "verified_state", "verified_zip", "verified_full_address"]

theorem dkeys_verify_address (client : Option SmartyService)
    (street city state zipcode : PyVal) :
    dkeys (verify_address client street city state zipcode) = verification_keys := by
  by_cases hs : pyFalsy street = true
  · rw [verify_address_insufficient client street city state zipcode hs]
    rfl
  · have hs' : pyFalsy street = false := by simpa using hs
    cases client with
    | none =>
      rw [verify_address_not_configured street city state zipcode hs']
      rfl
    | some svc =>
      cases hr : svc street city state zipcode with
      | error e =>
        rw [verify_address_err svc street city state zipcode e hs' hr]
        rfl
      | ok l =>
        cases l with
        | nil =>
          rw [verify_address_invalid svc street city state zipcode hs' hr]
          rfl
        | cons cand rest =>
          rw [verify_address_candidate svc street city state zipcode cand rest hs' hr]
          rfl

theorem verify_verified_iff (client : Option SmartyService)
    (street city state zipcode : PyVal) :
    dget (verify_address client street city state zipcode) "verified" = PyVal.bool true ↔
      (dget (verify_address client street city state zipcode) "verification_status" =
          PyVal.str "verified" ∨
        dget (verify_address client street city state zipcode) "verification_status" =
          PyVal.str "verified_missing_secondary") := by
  by_cases hs : pyFalsy street = true
  · rw [verify_address_insufficient client street city state zipcode hs]
    decide
  · have hs' : pyFalsy street = false := by simpa using hs
    cases client with
    | none =>
      rw [verify_address_not_configured street city state zipcode hs']
      decide
    | some svc =>
      cases hr : svc street city state zipcode with
      | error e =>
        rw [verify_address_err svc street city state zipcode e hs' hr]
        decide
      | ok l =>
        cases l with
        | nil =>
          rw [verify_address_invalid svc street city state zipcode hs' hr]
          decide
        | cons cand rest =>
          rw [verify_address_candidate svc street city state zipcode cand rest hs' hr]
          simp [dget]
          unfold dpv_verified dpv_status
          split_ifs <;> simp

/-- The `verified` value of every verify outcome is a boolean. -/
theorem verify_verified_shape (client : Option SmartyService)
    (street city state zipcode : PyVal) :
    dget (verify_address client street city state zipcode) "verified" = PyVal.bool true ∨
      dget (verify_address client street city state zipcode) "verified" = PyVal.bool false := by
  by_cases hs : pyFalsy street = true
  · rw [verify_address_insufficient client street city state zipcode hs]
    right
    rfl
  · have hs' : pyFalsy street = false := by simpa using hs
    cases client with
    | none =>
      rw [verify_address_not_configured street city state zipcode hs']
      right
      rfl
    | some svc =>
      cases hr : svc street city state zipcode with
      | error e =>
        rw [verify_address_err svc street city state zipcode e hs' hr]
        right
        rfl
      | ok l =>
        cases l with
        | nil =>
          rw [verify_address_invalid svc street city state zipcode hs' hr]
          right
          rfl
        | cons cand rest =>
          rw [verify_address_candidate svc street city state zipcode cand rest hs' hr]
          cases hb : dpv_verified cand.analysis.dpv_match_code with
          | true =>
            left
            simp [dget, hb]
          | false =>
            right
            simp [dget, hb]

/-- Claim C6: for every VerificationOutcome attached to a ScanRecord
(including the `not_attempted` outcome produced when verification is
disabled), `verified` is true exactly when the status is `verified` or
`verified_missing_secondary`, and is otherwise false or null; when
verification is disabled the attached outcome has `verified = None` and
status `not_attempted`. -/
theorem claim_c6 (env : ScanEnv) (d : PyDict) (h : scan_mail env = Except.ok d) :
    (dget d "verified" = PyVal.bool true ↔
      (dget d "verification_status" = PyVal.str "verified" ∨
        dget d "verification_status" = PyVal.str "verified_missing_secondary")) ∧
    (dget d "verified" = PyVal.bool true ∨ dget d "verified" = PyVal.bool false ∨
      dget d "verified" = PyVal.none) ∧
    (env.use_smarty = false →
      dget d "verified" = PyVal.none ∧
      dget d "verification_status" = PyVal.str "not_attempted") := by
  unfold scan_mail at h
  cases hE : (if env.use_gemini then scan_with_gemini env
      else if env.tesseract_available then scan_with_tesseract env
      else Except.error PyError.noMethod) with
  | error e =>
    rw [hE] at h
    simp at h
  | ok result =>
    rw [hE] at h
    cases hsm : env.use_smarty with
    | true =>
      rw [hsm] at h
      simp only [if_true] at h
      rw [Except.ok.injEq] at h
      subst h
      have hk1 : dget (dupdate result
          (verify_address env.smarty_client (dget result "street") (dget result "city")
            (dget result "state") (dget result "zip"))) "verified" =
          dget (verify_address env.smarty_client (dget result "street") (dget result "city")
            (dget result "state") (dget result "zip")) "verified" := by
        apply dget_dupdate_mem
        · rw [dkeys_verify_address]
          decide
        · rw [dkeys_verify_address]
          decide
      have hk2 : dget (dupdate result
          (verify_address env.smarty_client (dget result "street") (dget result "city")
            (dget result "state") (dget result "zip"))) "verification_status" =
          dget (verify_address env.smarty_client (dget result "street") (dget result "city")
            (dget result "state") (dget result "zip")) "verification_status" := by
        apply dget_dupdate_mem
        · rw [dkeys_verify_address]
          decide
        · rw [dkeys_verify_address]
          decide
      rw [hk1, hk2]
      refine ⟨verify_verified_iff _ _ _ _ _, ?_, fun hfalse => absurd hfalse (by decide)⟩
      rcases verify_verified_shape env.smarty_client (dget result "street")
          (dget result "city") (dget result "state") (dget result "zip") with hb | hb
      · exact Or.inl hb
      · exact Or.inr (Or.inl hb)
    | false =>
      rw [hsm] at h
      simp only [Bool.false_eq_true, if_false] at h
      rw [Except.ok.injEq] at h
      subst h
      have hk1 : dget (dupdate result not_attempted_result) "verified" =
          dget not_attempted_result "verified" := by
        apply dget_dupdate_mem <;> decide
      have hk2 : dget (dupdate result not_attempted_result) "verification_status" =
          dget not_attempted_result "verification_status" := by
        apply dget_dupdate_mem <;> decide
      rw [hk1, hk2]
      exact ⟨by decide, Or.inr (Or.inr (by decide)), fun _ => ⟨by decide, by decide⟩⟩

/-- Concrete instance of C6: a scan with verification disabled carries the
`not_attempted` outcome with a null `verified`. -/
theorem claim_c6_witness :
    (dget (dupdate (dset (parse_address_text "") "method" (PyVal.str "tesseract"))
        not_attempted_result) "verified" = PyVal.bool true ↔
      (dget (dupdate (dset (parse_address_text "") "method" (PyVal.str "tesseract"))
          not_attempted_result) "verification_status" = PyVal.str "verified" ∨
        dget (dupdate (dset (parse_address_text "") "method" (PyVal.str "tesseract"))
          not_attempted_result) "verification_status" =
          PyVal.str "verified_missing_secondary")) ∧
    dget (dupdate (dset (parse_address_text "") "method" (PyVal.str "tesseract"))
      not_attempted_result) "verified" = PyVal.none :=
  have h := claim_c6
    { use_gemini := false, tesseract_available := true, use_smarty := false,
      visionResponse := Except.error (), ocrText := Except.ok "",
      jsonLoads := jparse, smarty_client := Option.none }
    (dupdate (dset (parse_address_text "") "method" (PyVal.str "tesseract"))
      not_attempted_result) rfl
  ⟨h.1, (h.2.2 rfl).1⟩

/-! ## Claim C2: malformed model JSON never raises -/

/-- Claim C2: for every model response string on which the JSON parse fails,
`_parse_gemini_response` does not raise — it returns the record with all six
fields null — and the pipeline still produces a ScanRecord for the image. -/
theorem claim_c2 (j : String → Option JObj) (r : String)
    (h : j (clean_response r) = Option.none) :
    parse_gemini_response j r = all_null_fields ∧
    gemini_record j r =
      [("sender_name", PyVal.none), ("street", PyVal.none), ("city", PyVal.none),
       ("state", PyVal.none), ("zip", PyVal.none), ("category", PyVal.none),
       ("method", PyVal.str "gemini"), ("full_address", PyVal.none)] ∧
    (∀ env : ScanEnv, env.use_gemini = true → env.jsonLoads = j →
      env.visionResponse = Except.ok r → ∃ d, scan_mail env = Except.ok d) := by
  have h1 : parse_gemini_response j r = all_null_fields := by
    unfold parse_gemini_response
    rw [h]
  refine ⟨h1, ?_, ?_⟩
  · unfold gemini_record
    rw [h1]
    rfl
  · intro env hg hj hv
    cases hsm : env.use_smarty with
    | true =>
      exact ⟨_, by unfold scan_mail scan_with_gemini; rw [hg, hv, hj, hsm]; rfl⟩
    | false =>
      exact ⟨_, by unfold scan_mail scan_with_gemini; rw [hg, hv, hj, hsm]; rfl⟩

/-- An environment whose vision call answers with a non-JSON reply. -/
def envBadJson : ScanEnv :=
  { use_gemini := true, tesseract_available := true, use_smarty := false,
    visionResponse := Except.ok "I could not find an address.",
    ocrText := Except.ok "", jsonLoads := jparse, smarty_client := Option.none }

/-- Concrete instance of C2 with the response
`I could not find an address.`. -/
theorem claim_c2_witness :
    parse_gemini_response jparse "I could not find an address." = all_null_fields ∧
    ∃ d, scan_mail envBadJson = Except.ok d :=
  ⟨(claim_c2 jparse "I could not find an address." (by decide)).1,
   (claim_c2 jparse "I could not find an address." (by decide)).2.2 envBadJson rfl rfl rfl⟩

/-! ## Claim C1: the vision-to-OCR fallback -/

/-- Claim C1 concerns the fallback path: when the vision call raises and
Tesseract is available, `_scan_with_gemini`'s handler evaluates the unbound
name `image_path`, so the scan raises `NameError` instead of returning the
local-OCR record.  The second conjunct records what the OCR parser produces
on the scenario text `Jane Doe / 123 Main St / Springfield, IL 62704` — the
fields the fallback record would have carried had the handler called
`_scan_with_tesseract(image_source)`. -/
theorem claim_c1 (env : ScanEnv) (hg : env.use_gemini = true)
    (hv : env.visionResponse = Except.error ()) (ht : env.tesseract_available = true) :
    scan_mail env = Except.error PyError.nameError ∧
    parse_address_text "Jane Doe\n123 Main St\nSpringfield, IL 62704" =
      [("sender_name", PyVal.str "Jane Doe"), ("street", PyVal.str "123 Main St"),
       ("city", PyVal.str "Springfield"), ("state", PyVal.str "IL"),
       ("zip", PyVal.str "62704"),
       ("full_address", PyVal.str "123 Main St, Springfield, IL, 62704"),
       ("category", PyVal.none)] := by
  constructor
  · unfold scan_mail scan_with_gemini
    rw [hg, hv, ht]
    rfl
  · decide

/-- An environment in which the vision call raises a transport error while
Tesseract is available and would OCR the scenario text. -/
def envVisionDown : ScanEnv :=
  { use_gemini := true, tesseract_available := true, use_smarty := false,
    visionResponse := Except.error (),
    ocrText := Except.ok "Jane Doe\n123 Main St\nSpringfield, IL 62704",
    jsonLoads := jparse, smarty_client := Option.none }

/-- Concrete instance of C1: the scan raises `NameError` even though
Tesseract is available. -/
theorem claim_c1_witness :
    scan_mail envVisionDown = Except.error PyError.nameError ∧
    parse_address_text "Jane Doe\n123 Main St\nSpringfield, IL 62704" =
      [("sender_name", PyVal.str "Jane Doe"), ("street", PyVal.str "123 Main St"),
       ("city", PyVal.str "Springfield"), ("state", PyVal.str "IL"),
       ("zip", PyVal.str "62704"),
       ("full_address", PyVal.str "123 Main St, Springfield, IL, 62704"),
       ("category", PyVal.none)] :=
  claim_c1 envVisionDown rfl rfl rfl

/-! ## Claim C9: fence stripping before the JSON parse

The leading-fence substitution uses the pattern with the letters `jso` and
an optional `n` after the backticks, so a bare fence with no language tag
is never removed from the front: a bare-fenced valid JSON object is
processed as a parse failure, refuting the claim for such fences. -/

/-- Counterexample to C9 as stated: the response wrapped in a bare fence
contains a valid JSON object (the model parses the unfenced body into its
fields), yet the cleaning step leaves the opening fence in place and the
parse yields the all-null record instead of the six fields. -/
theorem claim_c9_counterexample :
    jparse "\x7b\"sender_name\": \"Jane Doe\"\x7d" =
      Option.some [("sender_name", Option.some "Jane Doe")] ∧
    clean_response "```\n\x7b\"sender_name\": \"Jane Doe\"\x7d\n```" =
      "```\n\x7b\"sender_name\": \"Jane Doe\"\x7d" ∧
    parse_gemini_response jparse "```\n\x7b\"sender_name\": \"Jane Doe\"\x7d\n```" =
      all_null_fields ∧
    parse_gemini_response jparse "\x7b\"sender_name\": \"Jane Doe\"\x7d" =
      [("sender_name", PyVal.str "Jane Doe"), ("street", PyVal.none),
       ("city", PyVal.none), ("state", PyVal.none), ("zip", PyVal.none),
       ("category", PyVal.none)] := by
  decide

/-- Heads that are not whitespace stop `dropWhile`. -/
theorem dropWhile_isPySpace_cons_of_false (c : Char) (l : List Char)
    (h : isPySpace c = false) : (c :: l).dropWhile isPySpace = c :: l := by
  simp [List.dropWhile_cons, h]

theorem head?_append_of_some {α : Type} (l1 l2 : List α) (a : α)
    (h : l1.head? = Option.some a) : (l1 ++ l2).head? = Option.some a := by
  cases l1 with
  | nil => simp at h
  | cons x t => simpa using h

theorem getLast?_append_of_some {α : Type} (l1 l2 : List α) (a : α)
    (h : l2.getLast? = Option.some a) : (l1 ++ l2).getLast? = Option.some a := by
  rw [← List.head?_reverse] at h ⊢
  rw [List.reverse_append]
  exact head?_append_of_some _ _ _ h

/-- Stripping on a list whose head and last characters are not whitespace
changes nothing. -/
theorem pyStripL_eq_self (L : List Char)
    (h1 : ∀ c, L.head? = Option.some c → isPySpace c = false)
    (h2 : ∀ c, L.getLast? = Option.some c → isPySpace c = false) :
    pyStripL L = L := by
  unfold pyStripL
  cases L with
  | nil => rfl
  | cons a t =>
    rw [dropWhile_isPySpace_cons_of_false a t (h1 a rfl)]
    have hrev : (a :: t).reverse.dropWhile isPySpace = (a :: t).reverse := by
      cases hR : (a :: t).reverse with
      | nil => rfl
      | cons b s =>
        apply dropWhile_isPySpace_cons_of_false
        apply h2
        rw [← List.head?_reverse, hR]
        rfl
    rw [hrev, List.reverse_reverse]

/-- The trailing-fence substitution on `body ++ "\n` three backticks, when
the body ends in a non-whitespace character, removes exactly the appended
newline-plus-fence. -/
theorem strip_trailing_core (l : List Char) (cl : Char)
    (hlast : l.getLast? = Option.some cl) (hcl : isPySpace cl = false) :
    stripTrailingFenceL (l ++ "\n```".data) = l := by
  have hlrev : l.reverse.head? = Option.some cl := by
    rw [List.head?_reverse]
    exact hlast
  have hrevform : (l ++ "\n```".data).reverse = '\x60' :: '\x60' :: '\x60' :: '\n' :: l.reverse := by
    rw [List.reverse_append]
    rfl
  have hsuf : "```".data.isSuffixOf (l ++ "\n```".data) = true := by
    unfold List.isSuffixOf
    rw [hrevform]
    rfl
  unfold stripTrailingFenceL
  rw [hsuf]
  simp only [if_true, hrevform, List.drop_succ_cons, List.drop_zero]
  rw [List.dropWhile_cons]
  simp only [show isPySpace '\n' = true from rfl, if_true]
  cases hl : l.reverse with
  | nil => rw [hl] at hlrev; simp at hlrev
  | cons b s =>
    have hb : isPySpace b = false := by
      rw [hl] at hlrev
      cases hlrev
      exact hcl
    rw [dropWhile_isPySpace_cons_of_false b s hb, ← hl, List.reverse_reverse]

/-- The leading-fence substitution removes a ` ```json `-plus-newline
opening fence together with the following whitespace. -/
theorem strip_leading_json (X : List Char) :
    stripLeadingFenceL ("```json\n".data ++ X) = X.dropWhile isPySpace := by
  have hpre : "```json".data.isPrefixOf ("```json\n".data ++ X) = true := rfl
  unfold stripLeadingFenceL
  rw [hpre]
  simp only [if_true]
  have hdrop : ("```json\n".data ++ X).drop 7 = '\n' :: X := rfl
  rw [hdrop, List.dropWhile_cons]
  simp only [show isPySpace '\n' = true from rfl, if_true]

/-- The leading-fence substitution does not touch a bare fence: the pattern
requires the letters `jso` after the backticks. -/
theorem strip_leading_bare (X : List Char) :
    stripLeadingFenceL ("```\n".data ++ X) = "```\n".data ++ X := by
  have h1 : "```json".data.isPrefixOf ("```\n".data ++ X) = false := rfl
  have h2 : "```jso".data.isPrefixOf ("```\n".data ++ X) = false := rfl
  unfold stripLeadingFenceL
  rw [h1, h2]
  rfl

/-- Unfolding of `clean_responseL` without the intermediate binding. -/
theorem clean_responseL_eq (cs : List Char) :
    clean_responseL cs =
      if "```".data.isPrefixOf (pyStripL cs) then
        stripTrailingFenceL (stripLeadingFenceL (pyStripL cs))
      else pyStripL cs := rfl

/-- The full cleaning step on a fenced body whose first and last characters
are not whitespace: a ` ```json ` fence is removed entirely, a bare fence
loses only its trailing marker. -/
theorem clean_fence_core (l : List Char) (c0 cl : Char)
    (hhead : l.head? = Option.some c0) (hc0 : isPySpace c0 = false)
    (hlast : l.getLast? = Option.some cl) (hcl : isPySpace cl = false) :
    clean_responseL ("```json\n".data ++ (l ++ "\n```".data)) = l ∧
    clean_responseL ("```\n".data ++ (l ++ "\n```".data)) = "```\n".data ++ l := by
  have hBlast : ("\n```".data).getLast? = Option.some '\x60' := rfl
  have hlB : (l ++ "\n```".data).getLast? = Option.some '\x60' :=
    getLast?_append_of_some _ _ _ hBlast
  have hlBhead : (l ++ "\n```".data).head? = Option.some c0 :=
    head?_append_of_some _ _ _ hhead
  have hex : ∃ t, l = c0 :: t := by
    cases l with
    | nil => simp at hhead
    | cons a t =>
      have ha : a = c0 := by simpa using hhead
      exact ⟨t, by rw [ha]⟩
  have hlBdrop : (l ++ "\n```".data).dropWhile isPySpace = l ++ "\n```".data := by
    obtain ⟨t, hlt⟩ := hex
    rw [hlt, List.cons_append]
    exact dropWhile_isPySpace_cons_of_false _ _ hc0
  constructor
  · have hstrip : pyStripL ("```json\n".data ++ (l ++ "\n```".data)) =
        "```json\n".data ++ (l ++ "\n```".data) := by
      apply pyStripL_eq_self
      · intro c hc
        have h0 : ("```json\n".data ++ (l ++ "\n```".data)).head? = Option.some '\x60' := rfl
        rw [h0] at hc
        cases hc
        decide
      · intro c hc
        have h0 : ("```json\n".data ++ (l ++ "\n```".data)).getLast? = Option.some '\x60' :=
          getLast?_append_of_some _ _ _ hlB
        rw [h0] at hc
        cases hc
        decide
    have hpre : "```".data.isPrefixOf ("```json\n".data ++ (l ++ "\n```".data)) = true := rfl
    rw [clean_responseL_eq, hstrip, hpre]
    simp only [if_true]
    rw [strip_leading_json, hlBdrop]
    exact strip_trailing_core l cl hlast hcl
  · have hstrip : pyStripL ("```\n".data ++ (l ++ "\n```".data)) =
        "```\n".data ++ (l ++ "\n```".data) := by
      apply pyStripL_eq_self
      · intro c hc
        have h0 : ("```\n".data ++ (l ++ "\n```".data)).head? = Option.some '\x60' := rfl
        rw [h0] at hc
        cases hc
        decide
      · intro c hc
        have h0 : ("```\n".data ++ (l ++ "\n```".data)).getLast? = Option.some '\x60' :=
          getLast?_append_of_some _ _ _ hlB
        rw [h0] at hc
        cases hc
        decide
    have hpre : "```".data.isPrefixOf ("```\n".data ++ (l ++ "\n```".data)) = true := rfl
    rw [clean_responseL_eq, hstrip, hpre]
    simp only [if_true]
    rw [strip_leading_bare, ← List.append_assoc]
    exact strip_trailing_core ("```\n".data ++ l) cl (getLast?_append_of_some _ _ _ hlast) hcl

/-- Amended claim C9: the parser strips outer whitespace and removes only a
` ```json `-tagged fence (the code's pattern ` ^```json?\s* `) before the
JSON parse — a ` ```json `-fenced valid JSON object is parsed into its six
fields; a bare ` ``` ` fence without a language tag keeps its opening
marker (only the trailing fence is removed), so such a response reaches the
JSON parse still fenced and is treated as a parse failure. -/
theorem claim_c9_amended (j : String → Option JObj) (b : String) (c0 cl : Char)
    (hhead : b.data.head? = Option.some c0) (hc0 : isPySpace c0 = false)
    (hlast : b.data.getLast? = Option.some cl) (hcl : isPySpace cl = false) :
    clean_response ("```json\n" ++ b ++ "\n```") = b ∧
    clean_response ("```\n" ++ b ++ "\n```") = "```\n" ++ b ∧
    parse_gemini_response j ("```json\n" ++ b ++ "\n```") =
      (match j b with
       | Option.some data =>
         [("sender_name", jget data "sender_name"), ("street", jget data "street"),
          ("city", jget data "city"), ("state", jget data "state"),
          ("zip", jget data "zip"), ("category", jget data "category")]
       | Option.none => all_null_fields) := by
  have hcore := clean_fence_core b.data c0 cl hhead hc0 hlast hcl
  have hdata1 : ("```json\n" ++ b ++ "\n```").data =
      "```json\n".data ++ (b.data ++ "\n```".data) := by
    show ("```json\n".data ++ b.data) ++ "\n```".data = _
    rw [List.append_assoc]
  have hdata2 : ("```\n" ++ b ++ "\n```").data =
      "```\n".data ++ (b.data ++ "\n```".data) := by
    show ("```\n".data ++ b.data) ++ "\n```".data = _
    rw [List.append_assoc]
  have hc1 : clean_response ("```json\n" ++ b ++ "\n```") = b := by
    unfold clean_response
    rw [hdata1, hcore.1]
  have hc2 : clean_response ("```\n" ++ b ++ "\n```") = "```\n" ++ b := by
    unfold clean_response
    rw [hdata2, hcore.2]
    rfl
  refine ⟨hc1, hc2, ?_⟩
  unfold parse_gemini_response
  rw [hc1]

/-- Concrete instance of the amended C9 on the body `\x7b"zip": "99999"\x7d`. -/
theorem claim_c9_amended_witness :
    clean_response ("```json\n" ++ "\x7b\"zip\": \"99999\"\x7d" ++ "\n```") =
      "\x7b\"zip\": \"99999\"\x7d" ∧
    clean_response ("```\n" ++ "\x7b\"zip\": \"99999\"\x7d" ++ "\n```") =
      "```\n" ++ "\x7b\"zip\": \"99999\"\x7d" ∧
    parse_gemini_response jparse ("```json\n" ++ "\x7b\"zip\": \"99999\"\x7d" ++ "\n```") =
      (match jparse "\x7b\"zip\": \"99999\"\x7d" with
       | Option.some data =>
         [("sender_name", jget data "sender_name"), ("street", jget data "street"),
          ("city", jget data "city"), ("state", jget data "state"),
          ("zip", jget data "zip"), ("category", jget data "category")]
       | Option.none => all_null_fields) :=
  claim_c9_amended jparse "\x7b\"zip\": \"99999\"\x7d" '\x7b' '\x7d' rfl rfl rfl rfl

/-! ## Claim C8: the heuristic OCR parser, stated as the spec describes it -/

/-- The first line containing a ZIP-pattern match. -/
def first_zip_line (lines : List String) : Option String :=
  lines.find? fun l => (zipSearch l).isSome

/-- The `zip` value the claim describes: the match on the first ZIP line. -/
def claimed_zip (lines : List String) : PyVal :=
  match first_zip_line lines with
  | Option.none => PyVal.none
  | Option.some l =>
    match zipSearch l with
    | Option.some z => PyVal.str z
    | Option.none => PyVal.none

/-- The `city` value: the stripped first capture group of the city/state
pattern on that same line, when it matches. -/
def claimed_city (lines : List String) : PyVal :=
  match first_zip_line lines with
  | Option.none => PyVal.none
  | Option.some l =>
    match cityStateSearch l with
    | Option.some g => PyVal.str (pyStrip g.1)
    | Option.none => PyVal.none

/-- The `state` value: the stripped two-letter capture group on that same
line, when it matches. -/
def claimed_state (lines : List String) : PyVal :=
  match first_zip_line lines with
  | Option.none => PyVal.none
  | Option.some l =>
    match cityStateSearch l with
    | Option.some g => PyVal.str (pyStrip g.2)
    | Option.none => PyVal.none

/-- Line 0, when present, becomes `sender_name`. -/
def claimed_sender (lines : List String) : PyVal :=
  match lines with
  | [] => PyVal.none
  | l0 :: _ => PyVal.str l0

/-- Line 1, when present, becomes `street`. -/
def claimed_street (lines : List String) : PyVal :=
  match lines with
  | _ :: l1 :: _ => PyVal.str l1
  | _ => PyVal.none

/-- The record the claim describes `_parse_address_text` to produce. -/
def spec_ocr_record (text : String) : PyDict :=
  [("sender_name", claimed_sender (lines_of text)),
   ("street", claimed_street (lines_of text)),
   ("city", claimed_city (lines_of text)),
   ("state", claimed_state (lines_of text)),
   ("zip", claimed_zip (lines_of text)),
   ("full_address",
     spec_full_address (claimed_street (lines_of text)) (claimed_city (lines_of text))
       (claimed_state (lines_of text)) (claimed_zip (lines_of text))),
   ("category", PyVal.none)]

theorem first_zip_line_cons_none (l : String) (ls : List String)
    (hz : zipSearch l = Option.none) :
    first_zip_line (l :: ls) = first_zip_line ls := by
  unfold first_zip_line
  rw [List.find?_cons_of_neg]
  simp [hz]

theorem first_zip_line_cons_some (l : String) (ls : List String) (z : String)
    (hz : zipSearch l = Option.some z) :
    first_zip_line (l :: ls) = Option.some l := by
  unfold first_zip_line
  rw [List.find?_cons_of_pos]
  simp [hz]

/-- The zip-scanning loop on the base record produces exactly the claimed
`zip`, `city` and `state` values. -/
theorem zip_scan_base (lines : List String) :
    zip_scan base_record lines =
      [("sender_name", PyVal.none), ("street", PyVal.none),
       ("city", claimed_city lines), ("state", claimed_state lines),
       ("zip", claimed_zip lines), ("full_address", PyVal.none),
       ("category", PyVal.none)] := by
  induction lines with
  | nil => rfl
  | cons l ls ih =>
    cases hz : zipSearch l with
    | none =>
      have hstep : zip_scan base_record (l :: ls) = zip_scan base_record ls := by
        simp only [zip_scan, hz]
      rw [hstep, ih]
      unfold claimed_city claimed_state claimed_zip
      rw [first_zip_line_cons_none l ls hz]
    | some z =>
      have hfz := first_zip_line_cons_some l ls z hz
      cases hcs : cityStateSearch l with
      | none =>
        have hstep : zip_scan base_record (l :: ls) =
            dset base_record "zip" (PyVal.str z) := by
          simp only [zip_scan, hz, hcs]
        rw [hstep]
        unfold claimed_city claimed_state claimed_zip
        rw [hfz]
        simp only [hz, hcs]
        rfl
      | some g =>
        have hstep : zip_scan base_record (l :: ls) =
            dset (dset (dset base_record "zip" (PyVal.str z)) "city"
              (PyVal.str (pyStrip g.1))) "state" (PyVal.str (pyStrip g.2)) := by
          simp only [zip_scan, hz, hcs]
        rw [hstep]
        unfold claimed_city claimed_state claimed_zip
        rw [hfz]
        simp only [hz, hcs]
        rfl

/-- Claim C8: for every OCR text, the heuristic parser splits the text into
non-empty trimmed lines; the first line matching the ZIP pattern sets
`zip`, and when that same line matches the city/state pattern its stripped
prefix becomes `city` and the two-letter code `state`; line 0 becomes
`sender_name`, line 1 becomes `street`; `category` is always null, and
every unmatched field is null — the parser is total. -/
theorem claim_c8 (text : String) : parse_address_text text = spec_ocr_record text := by
  unfold parse_address_text spec_ocr_record
  rw [zip_scan_base]
  generalize lines_of text = L
  rcases L with _ | ⟨l0, _ | ⟨l1, rest⟩⟩ <;>
    rw [spec_full_address_eq_joinAddr] <;>
      rfl

/-! ## Claim C10: every successful scan yields the same fifteen keys -/

/-- The fifteen keys of every ScanRecord dictionary. -/
def scan_record_keys : List String :=
  ["sender_name", "street", "city", "state", "zip", "full_address", "category",
   "method", "verified", "verification_status", "verified_street", "verified_city",
   "verified_state", "verified_zip", "verified_full_address"]

theorem dkeys_dset_not_mem (d : PyDict) (k : String) (v : PyVal) (h : k ∉ dkeys d) :
    dkeys (dset d k v) = dkeys d ++ [k] := by
  induction d with
  | nil => rfl
  | cons kv rest ih =>
    obtain ⟨k0, v0⟩ := kv
    rw [dkeys_cons, List.mem_cons] at h
    push_neg at h
    show dkeys (if k0 = k then (k, v) :: rest else (k0, v0) :: dset rest k v) = _
    rw [if_neg (fun e => h.1 e.symm), dkeys_cons, dkeys_cons, ih h.2, List.cons_append]

theorem dkeys_parse_gemini (j : String → Option JObj) (r : String) :
    dkeys (parse_gemini_response j r) =
      ["sender_name", "street", "city", "state", "zip", "category"] := by
  unfold parse_gemini_response
  cases j (clean_response r) <;> rfl

theorem dkeys_gemini_record (j : String → Option JObj) (r : String) :
    dkeys (gemini_record j r) =
      ["sender_name", "street", "city", "state", "zip", "category",
       "method", "full_address"] := by
  have h2 : "method" ∉ dkeys (parse_gemini_response j r) := by
    rw [dkeys_parse_gemini]
    decide
  have h1 : "full_address" ∉
      dkeys (dset (parse_gemini_response j r) "method" (PyVal.str "gemini")) := by
    rw [dkeys_dset_not_mem _ _ _ h2, dkeys_parse_gemini]
    decide
  unfold gemini_record finish_full_address
  rw [dkeys_dset_not_mem _ _ _ h1, dkeys_dset_not_mem _ _ _ h2, dkeys_parse_gemini]
  rfl

theorem dkeys_parse_address_text (t : String) :
    dkeys (parse_address_text t) =
      ["sender_name", "street", "city", "state", "zip", "full_address", "category"] := by
  unfold parse_address_text
  rw [zip_scan_base]
  generalize lines_of t = L
  rcases L with _ | ⟨l0, _ | ⟨l1, rest⟩⟩ <;> rfl

theorem dkeys_tesseract_record (t : String) :
    dkeys (dset (parse_address_text t) "method" (PyVal.str "tesseract")) =
      ["sender_name", "street", "city", "state", "zip", "full_address", "category",
       "method"] := by
  have h : "method" ∉ dkeys (parse_address_text t) := by
    rw [dkeys_parse_address_text]
    decide
  rw [dkeys_dset_not_mem _ _ _ h, dkeys_parse_address_text]
  rfl

theorem mem_keys_split_gemini (k : String) :
    (k ∈ ["sender_name", "street", "city", "state", "zip", "category",
        "method", "full_address"] ∨ k ∈ verification_keys) ↔
      k ∈ scan_record_keys := by
  unfold verification_keys scan_record_keys
  simp only [List.mem_cons, List.not_mem_nil, or_false]
  constructor
  · rintro ((rfl | rfl | rfl | rfl | rfl | rfl | rfl | rfl) |
      (rfl | rfl | rfl | rfl | rfl | rfl | rfl)) <;> simp
  · rintro (rfl | rfl | rfl | rfl | rfl | rfl | rfl | rfl | rfl | rfl | rfl | rfl |
      rfl | rfl | rfl) <;> simp

theorem mem_keys_split_tesseract (k : String) :
    (k ∈ ["sender_name", "street", "city", "state", "zip", "full_address",
        "category", "method"] ∨ k ∈ verification_keys) ↔
      k ∈ scan_record_keys := by
  unfold verification_keys scan_record_keys
  simp only [List.mem_cons, List.not_mem_nil, or_false]
  constructor
  · rintro ((rfl | rfl | rfl | rfl | rfl | rfl | rfl | rfl) |
      (rfl | rfl | rfl | rfl | rfl | rfl | rfl)) <;> simp
  · rintro (rfl | rfl | rfl | rfl | rfl | rfl | rfl | rfl | rfl | rfl | rfl | rfl |
      rfl | rfl | rfl) <;> simp

/-- Claim C10: every dictionary a successful `scan_mail` returns — vision or
OCR extraction, verification enabled, disabled, errored, or skipped for
insufficient data — has exactly the fifteen ScanRecord keys, so the record
is always serializable as a flat row with no missing columns. -/
theorem claim_c10 (env : ScanEnv) (d : PyDict) (h : scan_mail env = Except.ok d)
    (k : String) : k ∈ dkeys d ↔ k ∈ scan_record_keys := by
  unfold scan_mail at h
  cases hE : (if env.use_gemini then scan_with_gemini env
      else if env.tesseract_available then scan_with_tesseract env
      else Except.error PyError.noMethod) with
  | error e =>
    rw [hE] at h
    simp at h
  | ok result =>
    rw [hE] at h
    have hres : dkeys result =
        ["sender_name", "street", "city", "state", "zip", "category",
         "method", "full_address"] ∨
        dkeys result =
        ["sender_name", "street", "city", "state", "zip", "full_address", "category",
         "method"] := by
      cases hg : env.use_gemini with
      | true =>
        rw [hg] at hE
        simp only [if_true] at hE
        unfold scan_with_gemini at hE
        cases hv : env.visionResponse with
        | error u =>
          rw [hv] at hE
          cases ht : env.tesseract_available <;> rw [ht] at hE <;> simp at hE
        | ok text =>
          rw [hv] at hE
          simp only [Except.ok.injEq] at hE
          left
          rw [← hE, dkeys_gemini_record]
      | false =>
        rw [hg] at hE
        simp only [Bool.false_eq_true, if_false] at hE
        cases ht : env.tesseract_available with
        | false =>
          rw [ht] at hE
          simp at hE
        | true =>
          rw [ht] at hE
          simp only [if_true] at hE
          unfold scan_with_tesseract at hE
          cases ho : env.ocrText with
          | error u =>
            rw [ho] at hE
            simp at hE
          | ok text =>
            rw [ho] at hE
            simp only [Except.ok.injEq] at hE
            right
            rw [← hE, dkeys_tesseract_record]
    cases hsm : env.use_smarty with
    | true =>
      rw [hsm] at h
      simp only [if_true] at h
      rw [Except.ok.injEq] at h
      subst h
      rw [mem_dkeys_dupdate, dkeys_verify_address]
      rcases hres with h8 | h8
      · rw [h8]
        exact mem_keys_split_gemini k
      · rw [h8]
        exact mem_keys_split_tesseract k
    | false =>
      rw [hsm] at h
      simp only [Bool.false_eq_true, if_false] at h
      rw [Except.ok.injEq] at h
      subst h
      rw [mem_dkeys_dupdate, show dkeys not_attempted_result = verification_keys from rfl]
      rcases hres with h8 | h8
      · rw [h8]
        exact mem_keys_split_gemini k
      · rw [h8]
        exact mem_keys_split_tesseract k

/-- Concrete instance of C10 on the OCR path with verification disabled. -/
theorem claim_c10_witness :
    "verified_full_address" ∈
      dkeys (dupdate (dset (parse_address_text "") "method" (PyVal.str "tesseract"))
        not_attempted_result) ↔
      "verified_full_address" ∈ scan_record_keys :=
  claim_c10
    { use_gemini := false, tesseract_available := true, use_smarty := false,
      visionResponse := Except.error (), ocrText := Except.ok "",
      jsonLoads := jparse, smarty_client := Option.none }
    (dupdate (dset (parse_address_text "") "method" (PyVal.str "tesseract"))
      not_attempted_result) rfl "verified_full_address"

end MailScan
